import Mathlib

/-!
Verification of the kubepatch Terraform provider (Go sources under
`internal/provider/`): the `kubepatch_patch` resource's schema, its
dispatch from a declared resource-kind string to a typed Kubernetes API
call, the patch-type mapping, the Create/Read/Update/Delete handlers,
and the provider-level configuration resolution.

Go strings are modelled as `String`; a `types.String` of the
terraform-plugin-framework (which can be null) as `Option String`; a
fallible call as `Option`/`Except`-style results.  The Kubernetes
clientset is opaque to the provider, so an API call is recorded as a
value (`ApiCall`) and the cluster's response is an oracle
`ApiCall → Option String` (`none` = nil error, `some e` = error text),
exactly as the Go code only ever observes the returned `err`.
-/

/-- `k8s.io/apimachinery/pkg/types.JSONPatchType`. -/
def JSONPatchType : String := "application/json-patch+json"

/-- `k8s.io/apimachinery/pkg/types.MergePatchType`. -/
def MergePatchType : String := "application/merge-patch+json"

/-- `k8s.io/apimachinery/pkg/types.StrategicMergePatchType`. -/
def StrategicMergePatchType : String := "application/strategic-merge-patch+json"

/-- The resource data model of the `kubepatch_patch` resource
(`PatchResourceModel` in `patch_resource.go`): all five declared
attributes are `Required`, so they are modelled as plain strings; `id`
is the computed attribute. -/
structure PatchResourceModel where
  namespace_ : String
  resource : String
  name : String
  type : String
  data : String
  id : String

/-- The 24 values admitted by the `stringvalidator.OneOf` validator on
the `resource` attribute (`Schema`, `patch_resource.go`). -/
def resourceEnum : List String :=
  ["bindings", "componentstatuses", "configmaps", "endpoints", "events",
   "limitranges", "namespaces", "nodes", "persistentvolumeclaims",
   "persistentvolumes", "pods", "podtemplates", "replicationcontrollers",
   "resourcequotas", "secrets", "serviceaccounts", "services",
   "controllerrevisions", "daemonsets", "deployments", "replicasets",
   "statefulsets", "cronjobs", "jobs"]

/-- The 3 values admitted by the `stringvalidator.OneOf` validator on
the `type` attribute. -/
def typeEnum : List String := ["json", "merge", "strategic"]

/-- The `switch data.Type.ValueString()` at the top of
`PatchResource.patch`: `var pt k8stypes.PatchType` starts as the empty
string and is only assigned in the three matched cases. -/
def patchTypeOf (t : String) : String :=
  if t = "json" then JSONPatchType
  else if t = "merge" then MergePatchType
  else if t = "strategic" then StrategicMergePatchType
  else ""

/-- The clientset groups the dispatch table reaches:
`r.client.CoreV1()`, `r.client.AppsV1()`, `r.client.BatchV1()`. -/
inductive ApiGroup where
  | CoreV1
  | AppsV1
  | BatchV1
deriving DecidableEq

/-- One typed patch call against the cluster, as issued by
`PatchResource.patch`: the API group, the typed endpoint (the method
name on the group client, e.g. `Deployments`), the namespace argument
(`none` for the cluster-scoped endpoints, which take no namespace), and
the three arguments `data.Name.ValueString()`, `pt`,
`[]byte(data.Data.ValueString())` passed to `.Patch`. -/
structure ApiCall where
  group : ApiGroup
  endpoint : String
  ns : Option String
  name : String
  pt : String
  body : String
deriving DecidableEq

/-- ASCII lower-casing, used to state that a typed endpoint name (e.g.
`Deployments`) corresponds to a declared resource string (e.g.
`deployments`). -/
def asciiLower (s : String) : String :=
  String.mk (s.data.map (fun ch => if ch.isUpper then Char.ofNat (ch.toNat + 32) else ch))

/-- The `switch data.Resource.ValueString()` dispatch table of
`PatchResource.patch` (`patch_resource.go` lines 189–236), branch for
branch: which typed client call is selected for the declared resource
string, with the declared name, the computed patch type and the patch
body.  The Go function computes `pt` once into a local before the
switch; as `patchTypeOf` is pure, it is written inline in each branch
here.  A string matching no case selects no call (the Go `switch` has
no `default`, so `err` stays nil). -/
def patchCall (data : PatchResourceModel) : Option ApiCall :=
  if data.resource = "componentstatuses" then
    some ⟨.CoreV1, "ComponentStatuses", none, data.name, patchTypeOf data.type, data.data⟩
  else if data.resource = "configmaps" then
    some ⟨.CoreV1, "ConfigMaps", some data.namespace_, data.name, patchTypeOf data.type, data.data⟩
  else if data.resource = "endpoints" then
    some ⟨.CoreV1, "Endpoints", some data.namespace_, data.name, patchTypeOf data.type, data.data⟩
  else if data.resource = "events" then
    some ⟨.CoreV1, "Events", some data.namespace_, data.name, patchTypeOf data.type, data.data⟩
  else if data.resource = "limitranges" then
    some ⟨.CoreV1, "LimitRanges", some data.namespace_, data.name, patchTypeOf data.type, data.data⟩
  else if data.resource = "namespaces" then
    some ⟨.CoreV1, "Namespaces", none, data.name, patchTypeOf data.type, data.data⟩
  else if data.resource = "nodes" then
    some ⟨.CoreV1, "Nodes", none, data.name, patchTypeOf data.type, data.data⟩
  else if data.resource = "persistentvolumeclaims" then
    some ⟨.CoreV1, "PersistentVolumeClaims", some data.namespace_, data.name, patchTypeOf data.type, data.data⟩
  else if data.resource = "persistentvolumes" then
    some ⟨.CoreV1, "PersistentVolumes", none, data.name, patchTypeOf data.type, data.data⟩
  else if data.resource = "pods" then
    some ⟨.CoreV1, "Pods", some data.namespace_, data.name, patchTypeOf data.type, data.data⟩
  else if data.resource = "podtemplates" then
    some ⟨.CoreV1, "PodTemplates", some data.namespace_, data.name, patchTypeOf data.type, data.data⟩
  else if data.resource = "replicationcontrollers" then
    some ⟨.CoreV1, "ReplicationControllers", some data.namespace_, data.name, patchTypeOf data.type, data.data⟩
  else if data.resource = "resourcequotas" then
    some ⟨.CoreV1, "ResourceQuotas", some data.namespace_, data.name, patchTypeOf data.type, data.data⟩
  else if data.resource = "secrets" then
    some ⟨.CoreV1, "Secrets", some data.namespace_, data.name, patchTypeOf data.type, data.data⟩
  else if data.resource = "serviceaccounts" then
    some ⟨.CoreV1, "ServiceAccounts", some data.namespace_, data.name, patchTypeOf data.type, data.data⟩
  else if data.resource = "services" then
    some ⟨.CoreV1, "Services", some data.namespace_, data.name, patchTypeOf data.type, data.data⟩
  else if data.resource = "controllerrevisions" then
    some ⟨.AppsV1, "ControllerRevisions", some data.namespace_, data.name, patchTypeOf data.type, data.data⟩
  else if data.resource = "daemonsets" then
    some ⟨.AppsV1, "DaemonSets", some data.namespace_, data.name, patchTypeOf data.type, data.data⟩
  else if data.resource = "deployments" then
    some ⟨.AppsV1, "Deployments", some data.namespace_, data.name, patchTypeOf data.type, data.data⟩
  else if data.resource = "replicasets" then
    some ⟨.AppsV1, "ReplicaSets", some data.namespace_, data.name, patchTypeOf data.type, data.data⟩
  else if data.resource = "statefulsets" then
    some ⟨.AppsV1, "StatefulSets", some data.namespace_, data.name, patchTypeOf data.type, data.data⟩
  else if data.resource = "cronjobs" then
    some ⟨.BatchV1, "CronJobs", some data.namespace_, data.name, patchTypeOf data.type, data.data⟩
  else if data.resource = "jobs" then
    some ⟨.BatchV1, "Jobs", some data.namespace_, data.name, patchTypeOf data.type, data.data⟩
  else
    none

example : patchTypeOf "json" = JSONPatchType := by decide
example :
    patchCall ⟨"default", "deployments", "d", "json", "[]", ""⟩ =
      some ⟨.AppsV1, "Deployments", some "default", "d", JSONPatchType, "[]"⟩ := by
  decide
example : patchCall ⟨"default", "bindings", "d", "json", "[]", ""⟩ = none := by decide

/-- Dispatch equation for the `"componentstatuses"` branch of the switch. -/
theorem patchCall_componentstatuses (m : PatchResourceModel) (h : m.resource = "componentstatuses") :
    patchCall m = some ⟨.CoreV1, "ComponentStatuses", none, m.name, patchTypeOf m.type, m.data⟩ := by
  unfold patchCall; rw [h]; rfl

/-- Dispatch equation for the `"configmaps"` branch of the switch. -/
theorem patchCall_configmaps (m : PatchResourceModel) (h : m.resource = "configmaps") :
    patchCall m = some ⟨.CoreV1, "ConfigMaps", some m.namespace_, m.name, patchTypeOf m.type, m.data⟩ := by
  unfold patchCall; rw [h]; rfl

/-- Dispatch equation for the `"endpoints"` branch of the switch. -/
theorem patchCall_endpoints (m : PatchResourceModel) (h : m.resource = "endpoints") :
    patchCall m = some ⟨.CoreV1, "Endpoints", some m.namespace_, m.name, patchTypeOf m.type, m.data⟩ := by
  unfold patchCall; rw [h]; rfl

/-- Dispatch equation for the `"events"` branch of the switch. -/
theorem patchCall_events (m : PatchResourceModel) (h : m.resource = "events") :
    patchCall m = some ⟨.CoreV1, "Events", some m.namespace_, m.name, patchTypeOf m.type, m.data⟩ := by
  unfold patchCall; rw [h]; rfl

/-- Dispatch equation for the `"limitranges"` branch of the switch. -/
theorem patchCall_limitranges (m : PatchResourceModel) (h : m.resource = "limitranges") :
    patchCall m = some ⟨.CoreV1, "LimitRanges", some m.namespace_, m.name, patchTypeOf m.type, m.data⟩ := by
  unfold patchCall; rw [h]; rfl

/-- Dispatch equation for the `"namespaces"` branch of the switch. -/
theorem patchCall_namespaces (m : PatchResourceModel) (h : m.resource = "namespaces") :
    patchCall m = some ⟨.CoreV1, "Namespaces", none, m.name, patchTypeOf m.type, m.data⟩ := by
  unfold patchCall; rw [h]; rfl

/-- Dispatch equation for the `"nodes"` branch of the switch. -/
theorem patchCall_nodes (m : PatchResourceModel) (h : m.resource = "nodes") :
    patchCall m = some ⟨.CoreV1, "Nodes", none, m.name, patchTypeOf m.type, m.data⟩ := by
  unfold patchCall; rw [h]; rfl

/-- Dispatch equation for the `"persistentvolumeclaims"` branch of the switch. -/
theorem patchCall_persistentvolumeclaims (m : PatchResourceModel) (h : m.resource = "persistentvolumeclaims") :
    patchCall m = some ⟨.CoreV1, "PersistentVolumeClaims", some m.namespace_, m.name, patchTypeOf m.type, m.data⟩ := by
  unfold patchCall; rw [h]; rfl

/-- Dispatch equation for the `"persistentvolumes"` branch of the switch. -/
theorem patchCall_persistentvolumes (m : PatchResourceModel) (h : m.resource = "persistentvolumes") :
    patchCall m = some ⟨.CoreV1, "PersistentVolumes", none, m.name, patchTypeOf m.type, m.data⟩ := by
  unfold patchCall; rw [h]; rfl

/-- Dispatch equation for the `"pods"` branch of the switch. -/
theorem patchCall_pods (m : PatchResourceModel) (h : m.resource = "pods") :
    patchCall m = some ⟨.CoreV1, "Pods", some m.namespace_, m.name, patchTypeOf m.type, m.data⟩ := by
  unfold patchCall; rw [h]; rfl

/-- Dispatch equation for the `"podtemplates"` branch of the switch. -/
theorem patchCall_podtemplates (m : PatchResourceModel) (h : m.resource = "podtemplates") :
    patchCall m = some ⟨.CoreV1, "PodTemplates", some m.namespace_, m.name, patchTypeOf m.type, m.data⟩ := by
  unfold patchCall; rw [h]; rfl

/-- Dispatch equation for the `"replicationcontrollers"` branch of the switch. -/
theorem patchCall_replicationcontrollers (m : PatchResourceModel) (h : m.resource = "replicationcontrollers") :
    patchCall m = some ⟨.CoreV1, "ReplicationControllers", some m.namespace_, m.name, patchTypeOf m.type, m.data⟩ := by
  unfold patchCall; rw [h]; rfl

/-- Dispatch equation for the `"resourcequotas"` branch of the switch. -/
theorem patchCall_resourcequotas (m : PatchResourceModel) (h : m.resource = "resourcequotas") :
    patchCall m = some ⟨.CoreV1, "ResourceQuotas", some m.namespace_, m.name, patchTypeOf m.type, m.data⟩ := by
  unfold patchCall; rw [h]; rfl

/-- Dispatch equation for the `"secrets"` branch of the switch. -/
theorem patchCall_secrets (m : PatchResourceModel) (h : m.resource = "secrets") :
    patchCall m = some ⟨.CoreV1, "Secrets", some m.namespace_, m.name, patchTypeOf m.type, m.data⟩ := by
  unfold patchCall; rw [h]; rfl

/-- Dispatch equation for the `"serviceaccounts"` branch of the switch. -/
theorem patchCall_serviceaccounts (m : PatchResourceModel) (h : m.resource = "serviceaccounts") :
    patchCall m = some ⟨.CoreV1, "ServiceAccounts", some m.namespace_, m.name, patchTypeOf m.type, m.data⟩ := by
  unfold patchCall; rw [h]; rfl

/-- Dispatch equation for the `"services"` branch of the switch. -/
theorem patchCall_services (m : PatchResourceModel) (h : m.resource = "services") :
    patchCall m = some ⟨.CoreV1, "Services", some m.namespace_, m.name, patchTypeOf m.type, m.data⟩ := by
  unfold patchCall; rw [h]; rfl

/-- Dispatch equation for the `"controllerrevisions"` branch of the switch. -/
theorem patchCall_controllerrevisions (m : PatchResourceModel) (h : m.resource = "controllerrevisions") :
    patchCall m = some ⟨.AppsV1, "ControllerRevisions", some m.namespace_, m.name, patchTypeOf m.type, m.data⟩ := by
  unfold patchCall; rw [h]; rfl

/-- Dispatch equation for the `"daemonsets"` branch of the switch. -/
theorem patchCall_daemonsets (m : PatchResourceModel) (h : m.resource = "daemonsets") :
    patchCall m = some ⟨.AppsV1, "DaemonSets", some m.namespace_, m.name, patchTypeOf m.type, m.data⟩ := by
  unfold patchCall; rw [h]; rfl

/-- Dispatch equation for the `"deployments"` branch of the switch. -/
theorem patchCall_deployments (m : PatchResourceModel) (h : m.resource = "deployments") :
    patchCall m = some ⟨.AppsV1, "Deployments", some m.namespace_, m.name, patchTypeOf m.type, m.data⟩ := by
  unfold patchCall; rw [h]; rfl

/-- Dispatch equation for the `"replicasets"` branch of the switch. -/
theorem patchCall_replicasets (m : PatchResourceModel) (h : m.resource = "replicasets") :
    patchCall m = some ⟨.AppsV1, "ReplicaSets", some m.namespace_, m.name, patchTypeOf m.type, m.data⟩ := by
  unfold patchCall; rw [h]; rfl

/-- Dispatch equation for the `"statefulsets"` branch of the switch. -/
theorem patchCall_statefulsets (m : PatchResourceModel) (h : m.resource = "statefulsets") :
    patchCall m = some ⟨.AppsV1, "StatefulSets", some m.namespace_, m.name, patchTypeOf m.type, m.data⟩ := by
  unfold patchCall; rw [h]; rfl

/-- Dispatch equation for the `"cronjobs"` branch of the switch. -/
theorem patchCall_cronjobs (m : PatchResourceModel) (h : m.resource = "cronjobs") :
    patchCall m = some ⟨.BatchV1, "CronJobs", some m.namespace_, m.name, patchTypeOf m.type, m.data⟩ := by
  unfold patchCall; rw [h]; rfl

/-- Dispatch equation for the `"jobs"` branch of the switch. -/
theorem patchCall_jobs (m : PatchResourceModel) (h : m.resource = "jobs") :
    patchCall m = some ⟨.BatchV1, "Jobs", some m.namespace_, m.name, patchTypeOf m.type, m.data⟩ := by
  unfold patchCall; rw [h]; rfl

/-- A resource string matching no branch of the switch selects no call. -/
theorem patchCall_none (m : PatchResourceModel)
    (a1 : m.resource ≠ "componentstatuses")
    (a2 : m.resource ≠ "configmaps")
    (a3 : m.resource ≠ "endpoints")
    (a4 : m.resource ≠ "events")
    (a5 : m.resource ≠ "limitranges")
    (a6 : m.resource ≠ "namespaces")
    (a7 : m.resource ≠ "nodes")
    (a8 : m.resource ≠ "persistentvolumeclaims")
    (a9 : m.resource ≠ "persistentvolumes")
    (a10 : m.resource ≠ "pods")
    (a11 : m.resource ≠ "podtemplates")
    (a12 : m.resource ≠ "replicationcontrollers")
    (a13 : m.resource ≠ "resourcequotas")
    (a14 : m.resource ≠ "secrets")
    (a15 : m.resource ≠ "serviceaccounts")
    (a16 : m.resource ≠ "services")
    (a17 : m.resource ≠ "controllerrevisions")
    (a18 : m.resource ≠ "daemonsets")
    (a19 : m.resource ≠ "deployments")
    (a20 : m.resource ≠ "replicasets")
    (a21 : m.resource ≠ "statefulsets")
    (a22 : m.resource ≠ "cronjobs")
    (a23 : m.resource ≠ "jobs") :
    patchCall m = none := by
  unfold patchCall
  rw [if_neg a1, if_neg a2, if_neg a3, if_neg a4, if_neg a5, if_neg a6, if_neg a7, if_neg a8, if_neg a9, if_neg a10, if_neg a11, if_neg a12, if_neg a13, if_neg a14, if_neg a15, if_neg a16, if_neg a17, if_neg a18, if_neg a19, if_neg a20, if_neg a21, if_neg a22, if_neg a23]

/-- Every call the dispatch table selects carries the patch type
computed by the `type` switch as its `pt` argument. -/
theorem patchCall_pt_eq (m : PatchResourceModel) (c : ApiCall)
    (h : patchCall m = some c) : c.pt = patchTypeOf m.type := by
  by_cases a1 : m.resource = "componentstatuses"
  · rw [patchCall_componentstatuses m a1] at h
    injection h with h
    subst h
    rfl
  by_cases a2 : m.resource = "configmaps"
  · rw [patchCall_configmaps m a2] at h
    injection h with h
    subst h
    rfl
  by_cases a3 : m.resource = "endpoints"
  · rw [patchCall_endpoints m a3] at h
    injection h with h
    subst h
    rfl
  by_cases a4 : m.resource = "events"
  · rw [patchCall_events m a4] at h
    injection h with h
    subst h
    rfl
  by_cases a5 : m.resource = "limitranges"
  · rw [patchCall_limitranges m a5] at h
    injection h with h
    subst h
    rfl
  by_cases a6 : m.resource = "namespaces"
  · rw [patchCall_namespaces m a6] at h
    injection h with h
    subst h
    rfl
  by_cases a7 : m.resource = "nodes"
  · rw [patchCall_nodes m a7] at h
    injection h with h
    subst h
    rfl
  by_cases a8 : m.resource = "persistentvolumeclaims"
  · rw [patchCall_persistentvolumeclaims m a8] at h
    injection h with h
    subst h
    rfl
  by_cases a9 : m.resource = "persistentvolumes"
  · rw [patchCall_persistentvolumes m a9] at h
    injection h with h
    subst h
    rfl
  by_cases a10 : m.resource = "pods"
  · rw [patchCall_pods m a10] at h
    injection h with h
    subst h
    rfl
  by_cases a11 : m.resource = "podtemplates"
  · rw [patchCall_podtemplates m a11] at h
    injection h with h
    subst h
    rfl
  by_cases a12 : m.resource = "replicationcontrollers"
  · rw [patchCall_replicationcontrollers m a12] at h
    injection h with h
    subst h
    rfl
  by_cases a13 : m.resource = "resourcequotas"
  · rw [patchCall_resourcequotas m a13] at h
    injection h with h
    subst h
    rfl
  by_cases a14 : m.resource = "secrets"
  · rw [patchCall_secrets m a14] at h
    injection h with h
    subst h
    rfl
  by_cases a15 : m.resource = "serviceaccounts"
  · rw [patchCall_serviceaccounts m a15] at h
    injection h with h
    subst h
    rfl
  by_cases a16 : m.resource = "services"
  · rw [patchCall_services m a16] at h
    injection h with h
    subst h
    rfl
  by_cases a17 : m.resource = "controllerrevisions"
  · rw [patchCall_controllerrevisions m a17] at h
    injection h with h
    subst h
    rfl
  by_cases a18 : m.resource = "daemonsets"
  · rw [patchCall_daemonsets m a18] at h
    injection h with h
    subst h
    rfl
  by_cases a19 : m.resource = "deployments"
  · rw [patchCall_deployments m a19] at h
    injection h with h
    subst h
    rfl
  by_cases a20 : m.resource = "replicasets"
  · rw [patchCall_replicasets m a20] at h
    injection h with h
    subst h
    rfl
  by_cases a21 : m.resource = "statefulsets"
  · rw [patchCall_statefulsets m a21] at h
    injection h with h
    subst h
    rfl
  by_cases a22 : m.resource = "cronjobs"
  · rw [patchCall_cronjobs m a22] at h
    injection h with h
    subst h
    rfl
  by_cases a23 : m.resource = "jobs"
  · rw [patchCall_jobs m a23] at h
    injection h with h
    subst h
    rfl
  · rw [patchCall_none m a1 a2 a3 a4 a5 a6 a7 a8 a9 a10 a11 a12 a13 a14 a15 a16 a17 a18 a19 a20 a21 a22 a23] at h
    exact Option.noConfusion h

/-- C3: whenever the patch operation invokes an API call, the call
invoked matches the declared resource-kind string: the lower-cased name
of the typed endpoint it reaches is exactly the declared `resource`
value, for every branch of the literal string comparison table (e.g.
`"deployments"` reaches the `Deployments` patch endpoint, `"secrets"`
the `Secrets` one). -/
theorem C3_selected_call_matches_resource (m : PatchResourceModel) (c : ApiCall)
    (h : patchCall m = some c) : asciiLower c.endpoint = m.resource := by
  by_cases a1 : m.resource = "componentstatuses"
  · rw [patchCall_componentstatuses m a1] at h
    injection h with h
    subst h
    rw [a1]
    show asciiLower "ComponentStatuses" = "componentstatuses"
    decide
  by_cases a2 : m.resource = "configmaps"
  · rw [patchCall_configmaps m a2] at h
    injection h with h
    subst h
    rw [a2]
    show asciiLower "ConfigMaps" = "configmaps"
    decide
  by_cases a3 : m.resource = "endpoints"
  · rw [patchCall_endpoints m a3] at h
    injection h with h
    subst h
    rw [a3]
    show asciiLower "Endpoints" = "endpoints"
    decide
  by_cases a4 : m.resource = "events"
  · rw [patchCall_events m a4] at h
    injection h with h
    subst h
    rw [a4]
    show asciiLower "Events" = "events"
    decide
  by_cases a5 : m.resource = "limitranges"
  · rw [patchCall_limitranges m a5] at h
    injection h with h
    subst h
    rw [a5]
    show asciiLower "LimitRanges" = "limitranges"
    decide
  by_cases a6 : m.resource = "namespaces"
  · rw [patchCall_namespaces m a6] at h
    injection h with h
    subst h
    rw [a6]
    show asciiLower "Namespaces" = "namespaces"
    decide
  by_cases a7 : m.resource = "nodes"
  · rw [patchCall_nodes m a7] at h
    injection h with h
    subst h
    rw [a7]
    show asciiLower "Nodes" = "nodes"
    decide
  by_cases a8 : m.resource = "persistentvolumeclaims"
  · rw [patchCall_persistentvolumeclaims m a8] at h
    injection h with h
    subst h
    rw [a8]
    show asciiLower "PersistentVolumeClaims" = "persistentvolumeclaims"
    decide
  by_cases a9 : m.resource = "persistentvolumes"
  · rw [patchCall_persistentvolumes m a9] at h
    injection h with h
    subst h
    rw [a9]
    show asciiLower "PersistentVolumes" = "persistentvolumes"
    decide
  by_cases a10 : m.resource = "pods"
  · rw [patchCall_pods m a10] at h
    injection h with h
    subst h
    rw [a10]
    show asciiLower "Pods" = "pods"
    decide
  by_cases a11 : m.resource = "podtemplates"
  · rw [patchCall_podtemplates m a11] at h
    injection h with h
    subst h
    rw [a11]
    show asciiLower "PodTemplates" = "podtemplates"
    decide
  by_cases a12 : m.resource = "replicationcontrollers"
  · rw [patchCall_replicationcontrollers m a12] at h
    injection h with h
    subst h
    rw [a12]
    show asciiLower "ReplicationControllers" = "replicationcontrollers"
    decide
  by_cases a13 : m.resource = "resourcequotas"
  · rw [patchCall_resourcequotas m a13] at h
    injection h with h
    subst h
    rw [a13]
    show asciiLower "ResourceQuotas" = "resourcequotas"
    decide
  by_cases a14 : m.resource = "secrets"
  · rw [patchCall_secrets m a14] at h
    injection h with h
    subst h
    rw [a14]
    show asciiLower "Secrets" = "secrets"
    decide
  by_cases a15 : m.resource = "serviceaccounts"
  · rw [patchCall_serviceaccounts m a15] at h
    injection h with h
    subst h
    rw [a15]
    show asciiLower "ServiceAccounts" = "serviceaccounts"
    decide
  by_cases a16 : m.resource = "services"
  · rw [patchCall_services m a16] at h
    injection h with h
    subst h
    rw [a16]
    show asciiLower "Services" = "services"
    decide
  by_cases a17 : m.resource = "controllerrevisions"
  · rw [patchCall_controllerrevisions m a17] at h
    injection h with h
    subst h
    rw [a17]
    show asciiLower "ControllerRevisions" = "controllerrevisions"
    decide
  by_cases a18 : m.resource = "daemonsets"
  · rw [patchCall_daemonsets m a18] at h
    injection h with h
    subst h
    rw [a18]
    show asciiLower "DaemonSets" = "daemonsets"
    decide
  by_cases a19 : m.resource = "deployments"
  · rw [patchCall_deployments m a19] at h
    injection h with h
    subst h
    rw [a19]
    show asciiLower "Deployments" = "deployments"
    decide
  by_cases a20 : m.resource = "replicasets"
  · rw [patchCall_replicasets m a20] at h
    injection h with h
    subst h
    rw [a20]
    show asciiLower "ReplicaSets" = "replicasets"
    decide
  by_cases a21 : m.resource = "statefulsets"
  · rw [patchCall_statefulsets m a21] at h
    injection h with h
    subst h
    rw [a21]
    show asciiLower "StatefulSets" = "statefulsets"
    decide
  by_cases a22 : m.resource = "cronjobs"
  · rw [patchCall_cronjobs m a22] at h
    injection h with h
    subst h
    rw [a22]
    show asciiLower "CronJobs" = "cronjobs"
    decide
  by_cases a23 : m.resource = "jobs"
  · rw [patchCall_jobs m a23] at h
    injection h with h
    subst h
    rw [a23]
    show asciiLower "Jobs" = "jobs"
    decide
  · rw [patchCall_none m a1 a2 a3 a4 a5 a6 a7 a8 a9 a10 a11 a12 a13 a14 a15 a16 a17 a18 a19 a20 a21 a22 a23] at h
    exact Option.noConfusion h

/-- C3 witness: the endpoint-matching property at a concrete input. -/
theorem C3_selected_call_matches_resource_witness :
    asciiLower (⟨ApiGroup.CoreV1, "Secrets", some "ns", "s", MergePatchType, "x"⟩ : ApiCall).endpoint =
      (⟨"ns", "secrets", "s", "merge", "x", ""⟩ : PatchResourceModel).resource :=
  C3_selected_call_matches_resource ⟨"ns", "secrets", "s", "merge", "x", ""⟩
    ⟨ApiGroup.CoreV1, "Secrets", some "ns", "s", MergePatchType, "x"⟩ (by decide)

/-- C1 (as stated, refuted): the value `"bindings"` is accepted by the
schema's `resource` validator (one of its 24 values), yet the patch
operation's switch has no `"bindings"` case: for that value it selects
and invokes no API call at all, rather than exactly one. -/
theorem C1_bindings_no_call_counterexample :
    "bindings" ∈ resourceEnum ∧
      patchCall ⟨"default", "bindings", "b", "json", "[]", ""⟩ = none := by
  decide

/-- C1 (amended): for every resource-kind string accepted by the
schema's enumeration except `"bindings"`, the patch operation selects
exactly one per-resource-kind API call, the one corresponding to that
string (its typed endpoint, lower-cased, is the string), passing the
declared name, patch type, and patch body. -/
theorem C1_patch_dispatch_amended (m : PatchResourceModel)
    (h : m.resource ∈ resourceEnum) (hb : m.resource ≠ "bindings") :
    ∃ c, patchCall m = some c ∧ asciiLower c.endpoint = m.resource ∧
      c.name = m.name ∧ c.pt = patchTypeOf m.type ∧ c.body = m.data := by
  simp only [resourceEnum, List.mem_cons, List.not_mem_nil, or_false] at h
  rcases h with h|h|h|h|h|h|h|h|h|h|h|h|h|h|h|h|h|h|h|h|h|h|h|h
  · exact absurd h hb
  · exact ⟨⟨.CoreV1, "ComponentStatuses", none, m.name, patchTypeOf m.type, m.data⟩, patchCall_componentstatuses m h, by rw [h]; show asciiLower "ComponentStatuses" = "componentstatuses"; decide, rfl, rfl, rfl⟩
  · exact ⟨⟨.CoreV1, "ConfigMaps", some m.namespace_, m.name, patchTypeOf m.type, m.data⟩, patchCall_configmaps m h, by rw [h]; show asciiLower "ConfigMaps" = "configmaps"; decide, rfl, rfl, rfl⟩
  · exact ⟨⟨.CoreV1, "Endpoints", some m.namespace_, m.name, patchTypeOf m.type, m.data⟩, patchCall_endpoints m h, by rw [h]; show asciiLower "Endpoints" = "endpoints"; decide, rfl, rfl, rfl⟩
  · exact ⟨⟨.CoreV1, "Events", some m.namespace_, m.name, patchTypeOf m.type, m.data⟩, patchCall_events m h, by rw [h]; show asciiLower "Events" = "events"; decide, rfl, rfl, rfl⟩
  · exact ⟨⟨.CoreV1, "LimitRanges", some m.namespace_, m.name, patchTypeOf m.type, m.data⟩, patchCall_limitranges m h, by rw [h]; show asciiLower "LimitRanges" = "limitranges"; decide, rfl, rfl, rfl⟩
  · exact ⟨⟨.CoreV1, "Namespaces", none, m.name, patchTypeOf m.type, m.data⟩, patchCall_namespaces m h, by rw [h]; show asciiLower "Namespaces" = "namespaces"; decide, rfl, rfl, rfl⟩
  · exact ⟨⟨.CoreV1, "Nodes", none, m.name, patchTypeOf m.type, m.data⟩, patchCall_nodes m h, by rw [h]; show asciiLower "Nodes" = "nodes"; decide, rfl, rfl, rfl⟩
  · exact ⟨⟨.CoreV1, "PersistentVolumeClaims", some m.namespace_, m.name, patchTypeOf m.type, m.data⟩, patchCall_persistentvolumeclaims m h, by rw [h]; show asciiLower "PersistentVolumeClaims" = "persistentvolumeclaims"; decide, rfl, rfl, rfl⟩
  · exact ⟨⟨.CoreV1, "PersistentVolumes", none, m.name, patchTypeOf m.type, m.data⟩, patchCall_persistentvolumes m h, by rw [h]; show asciiLower "PersistentVolumes" = "persistentvolumes"; decide, rfl, rfl, rfl⟩
  · exact ⟨⟨.CoreV1, "Pods", some m.namespace_, m.name, patchTypeOf m.type, m.data⟩, patchCall_pods m h, by rw [h]; show asciiLower "Pods" = "pods"; decide, rfl, rfl, rfl⟩
  · exact ⟨⟨.CoreV1, "PodTemplates", some m.namespace_, m.name, patchTypeOf m.type, m.data⟩, patchCall_podtemplates m h, by rw [h]; show asciiLower "PodTemplates" = "podtemplates"; decide, rfl, rfl, rfl⟩
  · exact ⟨⟨.CoreV1, "ReplicationControllers", some m.namespace_, m.name, patchTypeOf m.type, m.data⟩, patchCall_replicationcontrollers m h, by rw [h]; show asciiLower "ReplicationControllers" = "replicationcontrollers"; decide, rfl, rfl, rfl⟩
  · exact ⟨⟨.CoreV1, "ResourceQuotas", some m.namespace_, m.name, patchTypeOf m.type, m.data⟩, patchCall_resourcequotas m h, by rw [h]; show asciiLower "ResourceQuotas" = "resourcequotas"; decide, rfl, rfl, rfl⟩
  · exact ⟨⟨.CoreV1, "Secrets", some m.namespace_, m.name, patchTypeOf m.type, m.data⟩, patchCall_secrets m h, by rw [h]; show asciiLower "Secrets" = "secrets"; decide, rfl, rfl, rfl⟩
  · exact ⟨⟨.CoreV1, "ServiceAccounts", some m.namespace_, m.name, patchTypeOf m.type, m.data⟩, patchCall_serviceaccounts m h, by rw [h]; show asciiLower "ServiceAccounts" = "serviceaccounts"; decide, rfl, rfl, rfl⟩
  · exact ⟨⟨.CoreV1, "Services", some m.namespace_, m.name, patchTypeOf m.type, m.data⟩, patchCall_services m h, by rw [h]; show asciiLower "Services" = "services"; decide, rfl, rfl, rfl⟩
  · exact ⟨⟨.AppsV1, "ControllerRevisions", some m.namespace_, m.name, patchTypeOf m.type, m.data⟩, patchCall_controllerrevisions m h, by rw [h]; show asciiLower "ControllerRevisions" = "controllerrevisions"; decide, rfl, rfl, rfl⟩
  · exact ⟨⟨.AppsV1, "DaemonSets", some m.namespace_, m.name, patchTypeOf m.type, m.data⟩, patchCall_daemonsets m h, by rw [h]; show asciiLower "DaemonSets" = "daemonsets"; decide, rfl, rfl, rfl⟩
  · exact ⟨⟨.AppsV1, "Deployments", some m.namespace_, m.name, patchTypeOf m.type, m.data⟩, patchCall_deployments m h, by rw [h]; show asciiLower "Deployments" = "deployments"; decide, rfl, rfl, rfl⟩
  · exact ⟨⟨.AppsV1, "ReplicaSets", some m.namespace_, m.name, patchTypeOf m.type, m.data⟩, patchCall_replicasets m h, by rw [h]; show asciiLower "ReplicaSets" = "replicasets"; decide, rfl, rfl, rfl⟩
  · exact ⟨⟨.AppsV1, "StatefulSets", some m.namespace_, m.name, patchTypeOf m.type, m.data⟩, patchCall_statefulsets m h, by rw [h]; show asciiLower "StatefulSets" = "statefulsets"; decide, rfl, rfl, rfl⟩
  · exact ⟨⟨.BatchV1, "CronJobs", some m.namespace_, m.name, patchTypeOf m.type, m.data⟩, patchCall_cronjobs m h, by rw [h]; show asciiLower "CronJobs" = "cronjobs"; decide, rfl, rfl, rfl⟩
  · exact ⟨⟨.BatchV1, "Jobs", some m.namespace_, m.name, patchTypeOf m.type, m.data⟩, patchCall_jobs m h, by rw [h]; show asciiLower "Jobs" = "jobs"; decide, rfl, rfl, rfl⟩

/-- C1 witness: the amended dispatch property at a concrete input. -/
theorem C1_patch_dispatch_witness :
    ∃ c, patchCall ⟨"default", "deployments", "d", "json", "[]", ""⟩ = some c ∧
      asciiLower c.endpoint = (⟨"default", "deployments", "d", "json", "[]", ""⟩ : PatchResourceModel).resource ∧
      c.name = "d" ∧
      c.pt = patchTypeOf (⟨"default", "deployments", "d", "json", "[]", ""⟩ : PatchResourceModel).type ∧
      c.body = "[]" :=
  C1_patch_dispatch_amended ⟨"default", "deployments", "d", "json", "[]", ""⟩
    (by decide) (by decide)

/-- C2: for every patch whose `type` attribute is `"json"`, `"merge"`
or `"strategic"` (the only values the schema validator admits), the
call the patch operation invokes carries `JSONPatchType`,
`MergePatchType` or `StrategicMergePatchType` respectively. -/
theorem C2_patch_type_mapping (m : PatchResourceModel) (c : ApiCall)
    (h : patchCall m = some c) :
    (m.type = "json" → c.pt = JSONPatchType) ∧
    (m.type = "merge" → c.pt = MergePatchType) ∧
    (m.type = "strategic" → c.pt = StrategicMergePatchType) := by
  have hp := patchCall_pt_eq m c h
  refine ⟨fun ht => ?_, fun ht => ?_, fun ht => ?_⟩ <;> rw [hp, ht] <;> decide

/-- C2 witness: the patch-type mapping at a concrete input. -/
theorem C2_patch_type_mapping_witness :
    ((⟨"default", "deployments", "d", "json", "[]", ""⟩ : PatchResourceModel).type = "json" →
        (⟨ApiGroup.AppsV1, "Deployments", some "default", "d", JSONPatchType, "[]"⟩ : ApiCall).pt =
          JSONPatchType) ∧
    ((⟨"default", "deployments", "d", "json", "[]", ""⟩ : PatchResourceModel).type = "merge" →
        (⟨ApiGroup.AppsV1, "Deployments", some "default", "d", JSONPatchType, "[]"⟩ : ApiCall).pt =
          MergePatchType) ∧
    ((⟨"default", "deployments", "d", "json", "[]", ""⟩ : PatchResourceModel).type = "strategic" →
        (⟨ApiGroup.AppsV1, "Deployments", some "default", "d", JSONPatchType, "[]"⟩ : ApiCall).pt =
          StrategicMergePatchType) :=
  C2_patch_type_mapping ⟨"default", "deployments", "d", "json", "[]", ""⟩
    ⟨ApiGroup.AppsV1, "Deployments", some "default", "d", JSONPatchType, "[]"⟩ (by decide)

/-- C10: for the cluster-scoped resource kinds `"componentstatuses"`,
`"namespaces"`, `"nodes"` and `"persistentvolumes"`, the patch
operation does not depend on the `namespace` attribute: two inputs that
differ only in namespace select the identical API call. -/
theorem C10_cluster_scoped_namespace_independent (m : PatchResourceModel) (ns1 ns2 : String)
    (h : m.resource ∈ ["componentstatuses", "namespaces", "nodes", "persistentvolumes"]) :
    patchCall { m with namespace_ := ns1 } = patchCall { m with namespace_ := ns2 } := by
  simp only [List.mem_cons, List.not_mem_nil, or_false] at h
  rcases h with h|h|h|h
  · rw [patchCall_componentstatuses { m with namespace_ := ns1 } h,
      patchCall_componentstatuses { m with namespace_ := ns2 } h]
  · rw [patchCall_namespaces { m with namespace_ := ns1 } h,
      patchCall_namespaces { m with namespace_ := ns2 } h]
  · rw [patchCall_nodes { m with namespace_ := ns1 } h,
      patchCall_nodes { m with namespace_ := ns2 } h]
  · rw [patchCall_persistentvolumes { m with namespace_ := ns1 } h,
      patchCall_persistentvolumes { m with namespace_ := ns2 } h]

/-- C10 witness: namespace independence at a concrete cluster-scoped input. -/
theorem C10_cluster_scoped_namespace_independent_witness :
    patchCall { (⟨"x", "nodes", "n", "json", "[]", ""⟩ : PatchResourceModel) with namespace_ := "a" } =
      patchCall { (⟨"x", "nodes", "n", "json", "[]", ""⟩ : PatchResourceModel) with namespace_ := "b" } :=
  C10_cluster_scoped_namespace_independent ⟨"x", "nodes", "n", "json", "[]", ""⟩ "a" "b" (by decide)

/-- The subset of `rest.Config` the provider's `Configure` can touch:
`Host`, plus the credential fields that stay at their zero value (the
empty string) because no code path assigns them. -/
structure RestConfig where
  Host : String
  CAData : String
  CertData : String
  KeyData : String
  BearerToken : String
deriving DecidableEq

/-- `types.String.String()` of the plugin framework: a known value
renders quoted (`%q`), a null one renders `<null>`.  (Interior escaping
of the `%q` rendering is not modelled; no claim depends on it.) -/
def tfStringRepr : Option String → String
  | some s => "\x22" ++ s ++ "\x22"
  | none => "<null>"

/-- The `exec` nested block of the provider schema. -/
structure ExecBlock where
  api_version : Option String
  command : Option String
  env : List (String × Option String)
  args : List (Option String)

/-- `KubernetesPatchProviderModel`: the provider configuration model
(the `ignore_annotations`, `ignore_labels` and `experiments` attributes
are read by no code path and are omitted). -/
structure KubernetesPatchProviderModel where
  Host : Option String
  Username : Option String
  Password : Option String
  Insecure : Option Bool
  TLSServerName : Option String
  ClientCertificate : Option String
  ClientKey : Option String
  ClusterCACertificate : Option String
  ConfigPaths : List (Option String)
  ConfigPath : Option String
  ConfigContext : Option String
  ConfigContextAuthInfo : Option String
  ConfigContextCluster : Option String
  Token : Option String
  ProxyURL : Option String
  Exec : List ExecBlock

/-- The `rest.Config` built by `KubernetesPatchProvider.Configure`
before it calls `kubernetes.NewForConfig`: `cfg := &rest.Config{}`,
then `cfg.Host = data.Host.String()` when `host` is non-null; the
`ClusterCACertificate` branch consists of the bare selector expression
`cfg.CAData`, which assigns nothing (as written it is not even
compilable Go — an unused expression), so it leaves the config
unchanged; no other attribute of the model is read.
`initializeConfiguration`, which implements the full resolution, is
never called from `Configure`. -/
def providerConfigureRestConfig (data : KubernetesPatchProviderModel) : RestConfig :=
  let cfg : RestConfig := ⟨"", "", "", "", ""⟩
  let cfg := if data.Host ≠ none then { cfg with Host := tfStringRepr data.Host } else cfg
  let cfg := if data.ClusterCACertificate ≠ none then cfg else cfg
  cfg

/-- A built Kubernetes clientset: `kubernetes.NewForConfig(cfg)`
determines the client entirely by the config it is given, so a client
is identified with that config here. -/
inductive Client where
  | clientset (cfg : RestConfig)
deriving DecidableEq

/-- `kubernetes.NewForConfig` (its error path adds a diagnostic and
stores no `ResourceData`; no claim depends on it). -/
def newForConfig (cfg : RestConfig) : Client := Client.clientset cfg

/-- What `req.ProviderData` can hold when the framework hands it to the
resource's `Configure`: the `*kubernetes.Clientset` the provider
stored, or a value of some other dynamic type (the type-assertion
failure branch). -/
inductive ProviderData where
  | clientset (c : Client)
  | other (typeName : String)

/-- The `resp.ResourceData = clientset` assignment at the end of
`KubernetesPatchProvider.Configure`: the resource data handed to the
resources is the one clientset built from the configure-time config. -/
def providerConfigureResourceData (data : KubernetesPatchProviderModel) : ProviderData :=
  ProviderData.clientset (newForConfig (providerConfigureRestConfig data))

/-- `PatchResource` (the resource implementation struct): its one
field is the stored client, nil until `Configure` stores one. -/
structure PatchResource where
  client : Option Client

/-- `PatchResource.Configure`: nil provider data returns with the
resource unchanged; data of the wrong dynamic type adds the
`Unexpected Resource Configure Type` error and stores nothing; a
clientset is stored into `r.client`. -/
def PatchResource.Configure (r : PatchResource) (providerData : Option ProviderData) :
    PatchResource × List (String × String) :=
  match providerData with
  | none => (r, [])
  | some (.other t) =>
      (r, [("Unexpected Resource Configure Type",
            "Expected *http.Client, got: " ++ t ++ ". Please report this issue to the provider developers.")])
  | some (.clientset c) => ({ r with client := some c }, [])

/-- `PatchResource.patch` as an operation of the resource: it selects
the call with the dispatch table and issues it through the stored
client `r.client`.  The first component is the `err` the Go function
returns (`none` = nil, also when no branch matched); the second records
the calls issued, each tagged with the client it went through. -/
def PatchResource.patch (r : PatchResource) (respond : ApiCall → Option String)
    (data : PatchResourceModel) : Option String × List (Option Client × ApiCall) :=
  match patchCall data with
  | some c => (respond c, [(r.client, c)])
  | none => (none, [])

/-- The observable outcome of one CRUD handler: the diagnostics it
added, the state it wrote (`none` when the handler did not write one),
and the API calls it issued. -/
structure OpResponse where
  diagnostics : List (String × String)
  state : Option PatchResourceModel
  calls : List (Option Client × ApiCall)

/-- `PatchResource.Create`: appends the plan-read diagnostics and
returns on error; hardcodes `data.Id = "example-id"`; calls `patch`;
on a patch error adds the `Client Error` diagnostic and returns
without writing state (the prior state is kept); on success saves
`data` into state. -/
def PatchResource.Create (r : PatchResource) (respond : ApiCall → Option String)
    (planDiags : List (String × String)) (plan : PatchResourceModel)
    (priorState : Option PatchResourceModel) : OpResponse :=
  if planDiags.isEmpty then
    let data := { plan with id := "example-id" }
    let res := r.patch respond data
    match res.1 with
    | some e =>
        ⟨planDiags ++ [("Client Error", "Unable to patch, got error: " ++ e)], priorState, res.2⟩
    | none => ⟨planDiags, some data, res.2⟩
  else
    ⟨planDiags, priorState, []⟩

/-- `PatchResource.Update`: like `Create` but the plan data is patched
and saved as read, with no id assignment. -/
def PatchResource.Update (r : PatchResource) (respond : ApiCall → Option String)
    (planDiags : List (String × String)) (plan : PatchResourceModel)
    (priorState : Option PatchResourceModel) : OpResponse :=
  if planDiags.isEmpty then
    let res := r.patch respond plan
    match res.1 with
    | some e =>
        ⟨planDiags ++ [("Client Error", "Unable to patch, got error: " ++ e)], priorState, res.2⟩
    | none => ⟨planDiags, some plan, res.2⟩
  else
    ⟨planDiags, priorState, []⟩

/-- `PatchResource.Read`: reads the prior state and writes the same
data back; it issues no API call, and adds no diagnostic beyond the
state-read ones. -/
def PatchResource.Read (r : PatchResource) (stateDiags : List (String × String))
    (priorState : Option PatchResourceModel) : OpResponse :=
  ⟨stateDiags, priorState, []⟩

/-- `PatchResource.Delete`: reads the prior state into the model and,
past that read, does nothing: no API call, no further diagnostic, no
state written (the framework removes a destroyed resource's state). -/
def PatchResource.Delete (r : PatchResource) (stateDiags : List (String × String))
    (priorState : Option PatchResourceModel) : OpResponse :=
  if stateDiags.isEmpty then ⟨stateDiags, none, []⟩ else ⟨stateDiags, priorState, []⟩

/-- One lifecycle operation against the configured resource. -/
inductive Op where
  | create (planDiags : List (String × String)) (plan : PatchResourceModel)
      (prior : Option PatchResourceModel)
  | update (planDiags : List (String × String)) (plan : PatchResourceModel)
      (prior : Option PatchResourceModel)
  | read (stateDiags : List (String × String)) (prior : Option PatchResourceModel)
  | delete (stateDiags : List (String × String)) (prior : Option PatchResourceModel)

/-- Dispatch one operation to its handler.  No handler assigns
`r.client` (only `Configure` does in the source), so the resource value
itself is unchanged across operations. -/
def PatchResource.runOp (r : PatchResource) (respond : ApiCall → Option String) :
    Op → OpResponse
  | .create planDiags plan prior => r.Create respond planDiags plan prior
  | .update planDiags plan prior => r.Update respond planDiags plan prior
  | .read stateDiags prior => r.Read stateDiags prior
  | .delete stateDiags prior => r.Delete stateDiags prior

/-- A sequence of lifecycle operations on the resource. -/
def PatchResource.runOps (r : PatchResource) (respond : ApiCall → Option String)
    (ops : List Op) : List OpResponse :=
  ops.map (r.runOp respond)

/-- C4: on Create and on Update, a patch error adds the `Client Error`
diagnostic and leaves the state unwritten (the prior state stands),
while a successful call saves the planned data into state (with the
hardcoded id on Create) and adds no diagnostic: success or error is
surfaced as plugin-protocol state exactly this way. -/
theorem C4_create_update_error_handling (r : PatchResource)
    (respond : ApiCall → Option String) (plan : PatchResourceModel)
    (prior : Option PatchResourceModel) :
    ((PatchResource.Create r respond [] plan prior).state =
      match (r.patch respond { plan with id := "example-id" }).1 with
      | some _ => prior
      | none => some { plan with id := "example-id" }) ∧
    ((PatchResource.Create r respond [] plan prior).diagnostics =
      match (r.patch respond { plan with id := "example-id" }).1 with
      | some e => [("Client Error", "Unable to patch, got error: " ++ e)]
      | none => []) ∧
    ((PatchResource.Update r respond [] plan prior).state =
      match (r.patch respond plan).1 with
      | some _ => prior
      | none => some plan) ∧
    ((PatchResource.Update r respond [] plan prior).diagnostics =
      match (r.patch respond plan).1 with
      | some e => [("Client Error", "Unable to patch, got error: " ++ e)]
      | none => []) := by
  unfold PatchResource.Create PatchResource.Update
  rcases hc : (r.patch respond { plan with id := "example-id" }).1 with _ | e <;>
    rcases hu : (r.patch respond plan).1 with _ | f <;>
      simp [hc, hu]

/-- C8: whenever the patch API call succeeds, Create writes the
constant string `"example-id"` as the resource's id into state,
regardless of the other attributes, which are saved as planned. -/
theorem C8_create_writes_example_id (r : PatchResource)
    (respond : ApiCall → Option String) (plan : PatchResourceModel)
    (prior : Option PatchResourceModel)
    (h : (r.patch respond { plan with id := "example-id" }).1 = none) :
    (PatchResource.Create r respond [] plan prior).state =
      some { plan with id := "example-id" } := by
  unfold PatchResource.Create
  simp [h]

/-- C8 witness: Create at a concrete input whose patch succeeds. -/
theorem C8_create_writes_example_id_witness :
    (PatchResource.Create ⟨none⟩ (fun _ => none) []
        ⟨"default", "deployments", "d", "json", "[]", "old"⟩ none).state =
      some ⟨"default", "deployments", "d", "json", "[]", "example-id"⟩ :=
  C8_create_writes_example_id ⟨none⟩ (fun _ => none)
    ⟨"default", "deployments", "d", "json", "[]", "old"⟩ none rfl

/-- C9: Delete performs no cluster API call, and once the prior state
was read successfully it adds no diagnostic: destroying a patch
resource leaves the patched cluster object unchanged. -/
theorem C9_delete_no_call_no_diagnostic (r : PatchResource)
    (stateDiags : List (String × String)) (prior : Option PatchResourceModel) :
    (PatchResource.Delete r stateDiags prior).calls = [] ∧
    (stateDiags.isEmpty = true → (PatchResource.Delete r stateDiags prior).diagnostics = []) := by
  unfold PatchResource.Delete
  constructor
  · split <;> rfl
  · intro h
    simp_all

/-- Every call `patch` issues goes through the stored client. -/
theorem patch_calls_use_stored_client (r : PatchResource)
    (respond : ApiCall → Option String) (data : PatchResourceModel) :
    ((r.patch respond data).2.all fun pc => decide (pc.1 = r.client)) = true := by
  unfold PatchResource.patch
  rcases h : patchCall data with _ | c <;> simp [h]

/-- Every call any handler issues goes through the stored client. -/
theorem runOp_calls_use_stored_client (r : PatchResource)
    (respond : ApiCall → Option String) (op : Op) :
    (((r.runOp respond op).calls).all fun pc => decide (pc.1 = r.client)) = true := by
  rcases op with ⟨planDiags, plan, prior⟩ | ⟨planDiags, plan, prior⟩ |
    ⟨stateDiags, prior⟩ | ⟨stateDiags, prior⟩
  · show ((r.Create respond planDiags plan prior).calls.all
      fun pc => decide (pc.1 = r.client)) = true
    simp only [PatchResource.Create]
    by_cases hd : planDiags.isEmpty = true
    · rw [if_pos hd]
      rcases h : (r.patch respond { plan with id := "example-id" }).1 with _ | e <;>
        simp only [h] <;>
        exact patch_calls_use_stored_client r respond { plan with id := "example-id" }
    · rw [if_neg hd]
      rfl
  · show ((r.Update respond planDiags plan prior).calls.all
      fun pc => decide (pc.1 = r.client)) = true
    simp only [PatchResource.Update]
    by_cases hd : planDiags.isEmpty = true
    · rw [if_pos hd]
      rcases h : (r.patch respond plan).1 with _ | e <;>
        simp only [h] <;>
        exact patch_calls_use_stored_client r respond plan
    · rw [if_neg hd]
      rfl
  · rfl
  · show ((r.Delete stateDiags prior).calls.all
      fun pc => decide (pc.1 = r.client)) = true
    simp only [PatchResource.Delete]
    by_cases hd : stateDiags.isEmpty = true
    · rw [if_pos hd]
      rfl
    · rw [if_neg hd]
      rfl

/-- C6: credential and configuration resolution happens once, at
provider configure time: the provider's Configure builds the client
from the configure-time model and hands exactly it over as
ResourceData; the resource's Configure stores it; and across any
sequence of subsequent operations the stored client is what every
issued API call goes through, unchanged. -/
theorem C6_configure_once_client_reused (d : KubernetesPatchProviderModel)
    (respond : ApiCall → Option String) (ops : List Op) (r0 : PatchResource) :
    providerConfigureResourceData d =
      ProviderData.clientset (newForConfig (providerConfigureRestConfig d)) ∧
    (r0.Configure (some (providerConfigureResourceData d))).1.client =
      some (newForConfig (providerConfigureRestConfig d)) ∧
    (((r0.Configure (some (providerConfigureResourceData d))).1.runOps respond ops).all
      fun resp => resp.calls.all
        fun pc => decide (pc.1 = some (newForConfig (providerConfigureRestConfig d)))) = true := by
  refine ⟨rfl, rfl, ?_⟩
  induction ops with
  | nil => rfl
  | cons op rest ih =>
      have h1 := runOp_calls_use_stored_client
        (r0.Configure (some (providerConfigureResourceData d))).1 respond op
      have hr : (r0.Configure (some (providerConfigureResourceData d))).1.client =
          some (newForConfig (providerConfigureRestConfig d)) := rfl
      rw [hr] at h1
      simp only [PatchResource.runOps, List.map_cons, List.all_cons] at ih ⊢
      rw [h1, ih]
      rfl

/-- A provider configuration with host and every credential and
kubeconfig attribute set. -/
def providerModelAllCreds : KubernetesPatchProviderModel where
  Host := some "https://k8s.example:6443"
  Username := some "u"
  Password := some "pw"
  Insecure := some false
  TLSServerName := some "sni"
  ClientCertificate := some "CLIENTCERTPEM"
  ClientKey := some "CLIENTKEYPEM"
  ClusterCACertificate := some "CAPEM"
  ConfigPaths := [some "/kube/a"]
  ConfigPath := some "/kube/config"
  ConfigContext := some "ctx"
  ConfigContextAuthInfo := some "ai"
  ConfigContextCluster := some "cl"
  Token := some "tok"
  ProxyURL := some "http://proxy.example"
  Exec := [⟨some "client.authentication.k8s.io/v1", some "aws", [], []⟩]

/-- The same provider configuration with only `host` set. -/
def providerModelHostOnly : KubernetesPatchProviderModel where
  Host := some "https://k8s.example:6443"
  Username := none
  Password := none
  Insecure := none
  TLSServerName := none
  ClientCertificate := none
  ClientKey := none
  ClusterCACertificate := none
  ConfigPaths := []
  ConfigPath := none
  ConfigContext := none
  ConfigContextAuthInfo := none
  ConfigContextCluster := none
  Token := none
  ProxyURL := none
  Exec := []

/-- C5 (code-bug evidence): the client configuration built at provider
configure time does not reflect the declared cluster CA certificate,
client certificate, client key, token, kubeconfig paths/contexts or
exec block: a fully-credentialed provider model yields the very same
`rest.Config` as one carrying only the host, and every credential
field of that config is empty.  The full resolution exists in
`initializeConfiguration`, but `Configure` never calls it. -/
theorem C5_configure_ignores_credentials :
    providerConfigureRestConfig providerModelAllCreds =
      providerConfigureRestConfig providerModelHostOnly ∧
    (providerConfigureRestConfig providerModelAllCreds).CAData = "" ∧
    (providerConfigureRestConfig providerModelAllCreds).CertData = "" ∧
    (providerConfigureRestConfig providerModelAllCreds).KeyData = "" ∧
    (providerConfigureRestConfig providerModelAllCreds).BearerToken = "" := by
  decide

/-- `clientcmd.ClientConfigLoadingRules`: the two fields
`initializeConfiguration` assigns; the zero value has both empty. -/
structure ClientConfigLoadingRules where
  ExplicitPath : String
  Precedence : List String

/-- `filepath.SplitList` on a Unix list separator: the empty string
yields no paths, otherwise split on the colon. -/
def filepathSplitList (s : String) : List String :=
  if s = "" then [] else s.splitOn ":"

/-- `homedir.Expand` applied to each chosen path in order, an error on
any path aborting the resolution, as the expansion loop of
`initializeConfiguration` does. -/
def expandAll (expand : String → Option String) : List String → Option (List String)
  | [] => some []
  | p :: ps =>
      match expand p, expandAll expand ps with
      | some q, some qs => some (q :: qs)
      | _, _ => none

/-- The `if len(configPaths) > 0` block of `initializeConfiguration`:
expand the chosen paths (`none` = a `homedir.Expand` error, returned
as a diagnostic); one expanded path becomes the loader's
`ExplicitPath`, several become its `Precedence`; with no path chosen
the loader keeps its zero value. -/
def loaderFromPaths (expand : String → Option String)
    (configPaths : List String) : Option ClientConfigLoadingRules :=
  if 0 < configPaths.length then
    match expandAll expand configPaths with
    | none => none
    | some expandedPaths =>
        if expandedPaths.length = 1 then
          some ⟨expandedPaths.headD "", []⟩
        else
          some ⟨"", expandedPaths⟩
  else
    some ⟨"", []⟩

/-- The kubeconfig-path resolution of `initializeConfiguration`:
`config_path` when set wins; else the `config_paths` list (each
element rendered through `types.String.String()`); else the
`KUBE_CONFIG_PATHS` environment variable split as a path list; the
chosen paths are then packaged into the loader by `loaderFromPaths`. -/
def initializeConfigurationLoader (expand : String → Option String)
    (envKubeConfigPaths : String) (d : KubernetesPatchProviderModel) :
    Option ClientConfigLoadingRules :=
  loaderFromPaths expand
    (match d.ConfigPath with
     | some v => [v]
     | none =>
        if d.ConfigPaths.length > 0 then d.ConfigPaths.map tfStringRepr
        else filepathSplitList envKubeConfigPaths)

/-- The claim's description of the loader assembly, on the resolved
path list after expansion: an expansion failure yields no loader, a
single path becomes the explicit path, several become the precedence
list, and no path leaves the loader at its zero value. -/
def mkLoader : Option (List String) → Option ClientConfigLoadingRules
  | none => none
  | some [] => some ⟨"", []⟩
  | some [p] => some ⟨p, []⟩
  | some ps => some ⟨"", ps⟩

/-- The code's packaging of chosen paths agrees with the claim's. -/
theorem loaderFromPaths_eq_mkLoader (expand : String → Option String)
    (paths : List String) :
    loaderFromPaths expand paths = mkLoader (expandAll expand paths) := by
  rcases paths with _ | ⟨a, as⟩
  · rfl
  · unfold loaderFromPaths
    rw [if_pos (by simp)]
    generalize expandAll expand (a :: as) = o
    rcases o with _ | (_ | ⟨q, _ | ⟨q2, rest⟩⟩) <;> rfl

/-- C7: kubeconfig path precedence: a set `config_path` wins over
`config_paths`, which wins over the `KUBE_CONFIG_PATHS` environment
variable; the chosen paths, after home expansion, are packaged with a
single resulting path as the loader's explicit path and multiple paths
as its precedence list (`mkLoader`). -/
theorem C7_kubeconfig_path_precedence (expand : String → Option String)
    (env : String) (d : KubernetesPatchProviderModel) :
    (∀ p, d.ConfigPath = some p →
        initializeConfigurationLoader expand env d =
          mkLoader (expandAll expand [p])) ∧
    (d.ConfigPath = none → d.ConfigPaths ≠ [] →
        initializeConfigurationLoader expand env d =
          mkLoader (expandAll expand (d.ConfigPaths.map tfStringRepr))) ∧
    (d.ConfigPath = none → d.ConfigPaths = [] →
        initializeConfigurationLoader expand env d =
          mkLoader (expandAll expand (filepathSplitList env))) := by
  refine ⟨?_, ?_, ?_⟩
  · intro p hp
    unfold initializeConfigurationLoader
    rw [hp]
    exact loaderFromPaths_eq_mkLoader expand [p]
  · intro hp hps
    unfold initializeConfigurationLoader
    rw [hp]
    show loaderFromPaths expand
        (if d.ConfigPaths.length > 0 then d.ConfigPaths.map tfStringRepr
         else filepathSplitList env) = _
    rw [if_pos (List.length_pos.mpr hps)]
    exact loaderFromPaths_eq_mkLoader expand (d.ConfigPaths.map tfStringRepr)
  · intro hp hps
    unfold initializeConfigurationLoader
    rw [hp]
    show loaderFromPaths expand
        (if d.ConfigPaths.length > 0 then d.ConfigPaths.map tfStringRepr
         else filepathSplitList env) = _
    rw [hps, if_neg (by simp)]
    exact loaderFromPaths_eq_mkLoader expand (filepathSplitList env)
